import Mathlib

/-!
Shallow embedding of `src/Datos.py`, a Streamlit sensor dashboard.

The program has two parts:
* `load_data` (lines 28-60): fetches all records from a Google sheet,
  builds a pandas DataFrame, resolves a timestamp column `FechaHora`
  (parse `FechaHora`, else parse `Timestamp`, else synthesize a
  10-second-spaced `pd.date_range` starting one day before `now`),
  and on any exception returns an empty DataFrame after emitting an
  error message.
* the presenter (lines 65-164): branches on `df.empty`; on non-empty
  data it computes metrics (row count, mean of `Voltaje`, last value
  of `Temperatura` and of `Humedad`) and charts; on empty data it
  renders an error plus a fixed example DataFrame (`ejemplo_data`).

Cells fetched from the sheet are numbers or strings (gspread's
`get_all_records` converts numeric-looking cells, and yields the empty
string for blank cells).  Values inside a DataFrame additionally
include parsed datetimes and missing values (NaN / NaT, collapsed here
into one `null`).  Exceptions are modelled with `Except String`;
numbers with `ℚ`; instants with `ℚ` seconds since the epoch.
-/

/-- A raw cell as returned by gspread's `get_all_records`: a number or
a string (blank cells arrive as the empty string). -/
inductive Cell where
  | num (q : ℚ)
  | str (s : String)
  deriving DecidableEq, Repr

/-- A value held in a DataFrame column: a number, a string, a parsed
datetime instant (seconds since the epoch), or a missing value
(pandas NaN / NaT). -/
inductive Value where
  | num (q : ℚ)
  | str (s : String)
  | ts (t : ℚ)
  | null
  deriving DecidableEq, Repr

/-- Is this value a resolved datetime instant? -/
def Value.isTs : Value → Bool
  | .ts _ => true
  | _ => false

/-- Values `pd.to_datetime` sends to NaT instead of an instant: the
empty string (gspread's blank cell) and missing values. -/
def Value.isBlank : Value → Bool
  | .str s => s = ""
  | .null => true
  | _ => false

/-- The instants of a column, in row order. -/
def tsTimes (vs : List Value) : List ℚ :=
  vs.filterMap (fun v => match v with | .ts t => some t | _ => none)

/-- One fetched record: an ordered mapping from column name to cell,
as produced by `sheet.get_all_records()` (all records share the header
keys, in header order). -/
abbrev Record := List (String × Cell)

/-- The pandas DataFrame model: a column-name list plus rows of
values; every row has one value per column. -/
structure DataFrame where
  cols : List String
  rows : List (List Value)
  deriving DecidableEq, Repr

/-- `pd.DataFrame()`, the empty frame returned on load failure. -/
def DataFrame.emptyDF : DataFrame := ⟨[], []⟩

/-- `df.empty`: true when the frame has no rows (or no columns). -/
def DataFrame.empty (df : DataFrame) : Bool :=
  df.rows.isEmpty || df.cols.isEmpty

/-- `len(df)`: the number of rows. -/
def DataFrame.len (df : DataFrame) : Nat := df.rows.length

/-- Collect column names from records in first-appearance order
(`pd.DataFrame` builds its columns this way from a list of dicts). -/
def recordKeys (records : List Record) : List String :=
  (records.flatMap (fun r => r.map Prod.fst)).foldl
    (fun acc k => if k ∈ acc then acc else acc ++ [k]) []

/-- Lift a raw cell into a DataFrame value. -/
def Cell.toValue : Cell → Value
  | .num q => .num q
  | .str s => .str s

/-- `pd.DataFrame(records)`: columns are the record keys in
first-appearance order, each row takes the record's value for each
column (missing keys become NaN). -/
def DataFrame.ofRecords (records : List Record) : DataFrame :=
  let cols := recordKeys records
  { cols := cols
    rows := records.map (fun r =>
      cols.map (fun c =>
        match r.lookup c with
        | some v => v.toValue
        | none => Value.null)) }

/-- Read a column as a list of values, one per row; `[]` when the
column is absent. -/
def DataFrame.getCol (df : DataFrame) (c : String) : List Value :=
  match df.cols.findIdx? (fun k => k = c) with
  | some i => df.rows.map (fun r => r.getD i Value.null)
  | none => []

/-- `df[c] = vs`: replace column `c` in place when it exists, else
append it as a new last column (pandas column assignment). -/
def DataFrame.setCol (df : DataFrame) (c : String) (vs : List Value) : DataFrame :=
  match df.cols.findIdx? (fun k => k = c) with
  | some i =>
    { cols := df.cols
      rows := (df.rows.zip vs).map (fun p => p.1.set i p.2) }
  | none =>
    { cols := df.cols ++ [c]
      rows := (df.rows.zip vs).map (fun p => p.1 ++ [p.2]) }

/-- Parse a run of decimal digits; `none` on empty or non-digit input. -/
def parseDigits (s : String) : Option Nat :=
  if s.isEmpty then none
  else if s.all Char.isDigit then
    some (s.foldl (fun a c => a * 10 + (c.toNat - 48)) 0)
  else none

/-- Days since 1970-01-01 of a civil date (standard civil-from-days
inverse, valid for the years appearing in sheet data). -/
def daysFromCivil (y m d : Int) : Int :=
  let y2 : Int := if m ≤ 2 then y - 1 else y
  let era : Int := y2 / 400
  let yoe : Int := y2 - era * 400
  let mp : Int := (m + 9) % 12
  let doy : Int := (153 * mp + 2) / 5 + d - 1
  let doe : Int := yoe * 365 + yoe / 4 - yoe / 100 + doy
  era * 146097 + doe - 719468

/-- Model of the datetime-string grammar accepted by
`pd.to_datetime`: `YYYY-MM-DD HH:MM:SS` (the format the sheet and the
example data use), mapped to seconds since the epoch; `none` for
strings pandas cannot parse. -/
def parseInstant (s : String) : Option ℚ :=
  match s.splitOn " " with
  | [date, time] =>
    match date.splitOn "-", time.splitOn ":" with
    | [ys, ms, ds], [hs, mis, ss] =>
      match parseDigits ys, parseDigits ms, parseDigits ds,
            parseDigits hs, parseDigits mis, parseDigits ss with
      | some y, some mo, some d, some h, some mi, some sec =>
        if 1 ≤ mo ∧ mo ≤ 12 ∧ 1 ≤ d ∧ d ≤ 31 ∧ h < 24 ∧ mi < 60 ∧ sec < 60 then
          some ((daysFromCivil y mo d) * 86400 + (h : ℚ) * 3600 + (mi : ℚ) * 60 + sec)
        else none
      | _, _, _, _, _, _ => none
    | _, _ => none
  | _ => none

/-- `pd.to_datetime` on one cell: numbers are nanoseconds since the
epoch, the empty string (and missing values) become NaT, parseable
strings become instants, anything else raises. -/
def toDatetimeValue (v : Value) : Except String Value :=
  match v with
  | .num q => .ok (.ts (q / 1000000000))
  | .str s =>
    if s = "" then .ok .null
    else
      match parseInstant s with
      | some t => .ok (.ts t)
      | none => .error ("Unknown datetime string format: " ++ s)
  | .ts t => .ok (.ts t)
  | .null => .ok .null

/-- `pd.to_datetime` on a whole column; the first unparseable cell
raises. -/
def toDatetimeCol : List Value → Except String (List Value)
  | [] => .ok []
  | v :: vs =>
    match toDatetimeValue v, toDatetimeCol vs with
    | .ok w, .ok ws => .ok (w :: ws)
    | .error e, _ => .error e
    | .ok _, .error e => .error e

/-- `pd.date_range(start, periods, freq)` with a frequency in
seconds: `start, start + freq, …`, `periods` instants in all. -/
def dateRange (start : ℚ) (periods : Nat) (freq : ℚ) : List Value :=
  (List.range periods).map (fun i : Nat => Value.ts (start + freq * i))

/-- The body of `load_data`'s `try` block, lines 31-56: fetch the
records (`fetch` bundles credential loading, authorization and the
sheet read, each of which may raise), build the DataFrame, then
resolve `FechaHora`: parse the `FechaHora` column if present, else
parse `Timestamp` into a new `FechaHora` column, else synthesize a
10-second-spaced range starting at `now` minus one day
(`datetime.now() - timedelta(days=1)`). -/
def loadBody (fetch : Except String (List Record)) (now : ℚ) :
    Except String DataFrame :=
  match fetch with
  | .error e => .error e
  | .ok records =>
    let df := DataFrame.ofRecords records
    if df.cols.contains "FechaHora" then
      match toDatetimeCol (df.getCol "FechaHora") with
      | .ok parsed => .ok (df.setCol "FechaHora" parsed)
      | .error e => .error e
    else if df.cols.contains "Timestamp" then
      match toDatetimeCol (df.getCol "Timestamp") with
      | .ok parsed => .ok (df.setCol "FechaHora" parsed)
      | .error e => .error e
    else
      .ok (df.setCol "FechaHora" (dateRange (now - 86400) df.len 10))

/-- `load_data` (lines 28-60): run the body; any exception is caught,
an error message is emitted (`st.error`) and the empty DataFrame is
returned.  The result pairs the returned DataFrame with the optional
diagnostic message. -/
def load_data (fetch : Except String (List Record)) (now : ℚ) :
    DataFrame × Option String :=
  match loadBody fetch now with
  | .ok df => (df, none)
  | .error e => (DataFrame.emptyDF, some ("Error cargando datos: " ++ e))

/-- `series.mean()` (line 76): raises `TypeError` when the object
column holds strings or datetimes; otherwise the arithmetic mean of
the numeric entries, skipping missing values (`none` models the NaN
result of an all-missing column). -/
def seriesMean (vs : List Value) : Except String (Option ℚ) :=
  if vs.any (fun v => match v with | .str _ => true | .ts _ => true | _ => false) then
    .error "TypeError: unsupported operand type for mean"
  else if (vs.filterMap (fun v => match v with | .num q => some q | _ => none)).isEmpty then
    .ok none
  else
    .ok (some ((vs.filterMap (fun v => match v with | .num q => some q | _ => none)).sum
      / ((vs.filterMap (fun v => match v with | .num q => some q | _ => none)).length : ℚ)))

/-- `series.iloc[-1]` followed by an `:.1f` format (lines 82, 88):
raises on an empty column, and raises `ValueError` when the last value
is a string or a datetime (the float format code rejects them). -/
def lastValueMetric (vs : List Value) : Except String Value :=
  match vs.getLast? with
  | none => .error "IndexError: single positional indexer is out-of-bounds"
  | some (.str _) => .error "ValueError: unknown format code f"
  | some (.ts _) => .error "ValueError: unknown format code f"
  | some v => .ok v

/-- The `Voltaje` metric (lines 75-78): mean of the column when
present, `N/A` (`none`) otherwise. -/
def voltajeMetric (df : DataFrame) : Except String (Option ℚ) :=
  if df.cols.contains "Voltaje" then seriesMean (df.getCol "Voltaje")
  else .ok none

/-- The `Temperatura` metric (lines 81-84): last value of the column
when present, `N/A` (`none`) otherwise. -/
def temperaturaMetric (df : DataFrame) : Except String (Option Value) :=
  if df.cols.contains "Temperatura" then
    (lastValueMetric (df.getCol "Temperatura")).map some
  else .ok none

/-- The `Humedad` metric (lines 87-90): last value of the column when
present, `N/A` (`none`) otherwise. -/
def humedadMetric (df : DataFrame) : Except String (Option Value) :=
  if df.cols.contains "Humedad" then
    (lastValueMetric (df.getCol "Humedad")).map some
  else .ok none

/-- A column is a chart candidate when its dtype is `float64` or
`int64` (line 103): the inferred dtype is numeric when every entry is
a number (NaN entries keep `float64`), and at least one entry is a
number. -/
def numericDtype (vs : List Value) : Bool :=
  vs.all (fun v => match v with | .num _ => true | .null => true | _ => false)
    && vs.any (fun v => match v with | .num _ => true | _ => false)

/-- `available_columns` (line 103): numeric-dtype columns other than
`FechaHora`. -/
def availableColumns (df : DataFrame) : List String :=
  df.cols.filter (fun c => c ≠ "FechaHora" && numericDtype (df.getCol c))

/-- What the page renders: the data view (metrics, chart candidates
and their default selection, previews), or the fallback
troubleshooting view with its fixed example DataFrame. -/
inductive View where
  | data (total : Nat) (voltaje : Option ℚ)
      (temperatura humedad : Option Value)
      (chartCandidates defaultSelection : List String)
  | fallback (ejemplo : DataFrame)
  deriving DecidableEq, Repr

/-- The fixed example DataFrame `ejemplo_data` (lines 155-164). -/
def ejemplo_data : DataFrame :=
  { cols := [ "FechaHora", "Voltaje", "CorrienteINA", "Potencia",
              "CorrienteACS", "Temperatura", "Humedad"]
    rows :=
      [ [ .str "2024-01-01 10:00:00", .num 3.3, .num 150.5, .num 495.0,
          .num 145.0, .num 25.5, .num 60.0],
        [ .str "2024-01-01 10:00:10", .num 3.2, .num 148.2, .num 480.0,
          .num 143.5, .num 25.6, .num 59.8]] }

/-- The presenter (lines 65-164): on a non-empty DataFrame compute the
four metrics and the chart series (default selection: first two
numeric columns); on an empty DataFrame render the error state with
`ejemplo_data`.  Metric computation happens outside any `try`, so its
exceptions escape to the page. -/
def render (df : DataFrame) : Except String View :=
  if !df.empty then
    match voltajeMetric df with
    | .error e => .error e
    | .ok volt =>
      match temperaturaMetric df with
      | .error e => .error e
      | .ok temp =>
        match humedadMetric df with
        | .error e => .error e
        | .ok hum =>
          let avail := availableColumns df
          .ok (.data df.len volt temp hum avail (avail.take 2))
  else
    .ok (.fallback ejemplo_data)

/-! ### Supporting lemmas -/

/-- Well-formed frame: one value per column in every row. -/
def DataFrame.Wf (df : DataFrame) : Prop :=
  ∀ r ∈ df.rows, r.length = df.cols.length

lemma ofRecords_wf (records : List Record) : (DataFrame.ofRecords records).Wf := by
  intro r hr
  simp only [DataFrame.ofRecords, List.mem_map] at hr
  obtain ⟨rec, -, rfl⟩ := hr
  simp [DataFrame.ofRecords]

lemma ofRecords_rows_length (records : List Record) :
    (DataFrame.ofRecords records).rows.length = records.length := by
  simp [DataFrame.ofRecords]

lemma contains_eq_decide_mem (l : List String) (a : String) :
    l.contains a = decide (a ∈ l) :=
  List.elem_eq_mem a l

lemma findIdx?_of_contains {l : List String} {c : String} (h : l.contains c = true) :
    ∃ i, l.findIdx? (fun k => k = c) = some i := by
  rw [contains_eq_decide_mem, decide_eq_true_eq] at h
  have hany : l.any (fun k => decide (k = c)) = true :=
    List.any_eq_true.mpr ⟨c, h, by simp⟩
  have hsome : (l.findIdx? (fun k => k = c)).isSome = true := by
    rw [List.findIdx?_isSome]; exact hany
  exact Option.isSome_iff_exists.mp hsome

lemma findIdx?_some_facts {l : List String} {c : String} {i : Nat}
    (h : l.findIdx? (fun k => k = c) = some i) :
    ∃ hlt : i < l.length, l.get ⟨i, hlt⟩ = c := by
  obtain ⟨hlt, hp, -⟩ := List.findIdx?_eq_some_iff_getElem.mp h
  exact ⟨hlt, by simpa using hp⟩

lemma zipset_getD (rows : List (List Value)) (vs : List Value) (i : Nat) (d : Value)
    (hlen : vs.length = rows.length) (hb : ∀ r ∈ rows, i < r.length) :
    ((rows.zip vs).map (fun p => p.1.set i p.2)).map (fun r => r.getD i d) = vs := by
  induction rows generalizing vs with
  | nil =>
    cases vs with
    | nil => rfl
    | cons v vs => simp at hlen
  | cons r rows ih =>
    cases vs with
    | nil => simp at hlen
    | cons v vs =>
      simp only [List.zip_cons_cons, List.map_cons, List.cons.injEq]
      refine ⟨?_, ih vs (by simpa using hlen) (fun r' hr' => hb r' (by simp [hr']))⟩
      have hi : i < r.length := hb r (by simp)
      rw [List.getD_eq_getElem _ _ (by simpa using hi)]
      exact List.getElem_set_self _

lemma zipset_getD_ne (rows : List (List Value)) (vs : List Value) (i j : Nat) (d : Value)
    (hij : i ≠ j) (hlen : vs.length = rows.length) :
    ((rows.zip vs).map (fun p => p.1.set i p.2)).map (fun r => r.getD j d)
      = rows.map (fun r => r.getD j d) := by
  induction rows generalizing vs with
  | nil =>
    cases vs with
    | nil => rfl
    | cons v vs => simp at hlen
  | cons r rows ih =>
    cases vs with
    | nil => simp at hlen
    | cons v vs =>
      simp only [List.zip_cons_cons, List.map_cons, List.cons.injEq]
      refine ⟨?_, ih vs (by simpa using hlen)⟩
      rw [List.getD_eq_getElem?_getD, List.getD_eq_getElem?_getD,
        List.getElem?_set_ne hij]

lemma zipappend_getD (rows : List (List Value)) (vs : List Value) (n : Nat) (d : Value)
    (hlen : vs.length = rows.length) (hb : ∀ r ∈ rows, r.length = n) :
    ((rows.zip vs).map (fun p => p.1 ++ [p.2])).map (fun r => r.getD n d) = vs := by
  induction rows generalizing vs with
  | nil =>
    cases vs with
    | nil => rfl
    | cons v vs => simp at hlen
  | cons r rows ih =>
    cases vs with
    | nil => simp at hlen
    | cons v vs =>
      simp only [List.zip_cons_cons, List.map_cons, List.cons.injEq]
      refine ⟨?_, ih vs (by simpa using hlen) (fun r' hr' => hb r' (by simp [hr']))⟩
      have hn : r.length = n := hb r (by simp)
      subst hn
      rw [List.getD_eq_getElem _ _ (by simp)]
      simp

lemma zipappend_getD_lt (rows : List (List Value)) (vs : List Value) (j : Nat) (d : Value)
    (hlen : vs.length = rows.length) (hb : ∀ r ∈ rows, j < r.length) :
    ((rows.zip vs).map (fun p => p.1 ++ [p.2])).map (fun r => r.getD j d)
      = rows.map (fun r => r.getD j d) := by
  induction rows generalizing vs with
  | nil =>
    cases vs with
    | nil => rfl
    | cons v vs => simp at hlen
  | cons r rows ih =>
    cases vs with
    | nil => simp at hlen
    | cons v vs =>
      simp only [List.zip_cons_cons, List.map_cons, List.cons.injEq]
      refine ⟨?_, ih vs (by simpa using hlen) (fun r' hr' => hb r' (by simp [hr']))⟩
      have hj : j < r.length := hb r (by simp)
      rw [List.getD_eq_getElem _ _ (by simp [hj]; omega),
        List.getD_eq_getElem _ _ (by simpa using hj)]
      exact List.getElem_append_left _

lemma getCol_length_of_findIdx? {df : DataFrame} {c : String} {i : Nat}
    (h : df.cols.findIdx? (fun k => k = c) = some i) :
    (df.getCol c).length = df.rows.length := by
  unfold DataFrame.getCol
  rw [h]
  simp

lemma findIdx?_append_self (l : List String) (c : String)
    (h : l.findIdx? (fun k => k = c) = none) :
    (l ++ [c]).findIdx? (fun k => k = c) = some l.length := by
  rw [List.findIdx?_append, h]
  simp [List.findIdx?]

lemma setCol_getCol_self (df : DataFrame) (c : String) (vs : List Value)
    (hwf : df.Wf) (hlen : vs.length = df.rows.length) :
    (df.setCol c vs).getCol c = vs := by
  unfold DataFrame.setCol
  rcases h : df.cols.findIdx? (fun k => k = c) with _ | i
  · simp only
    unfold DataFrame.getCol
    rw [findIdx?_append_self df.cols c h]
    exact zipappend_getD df.rows vs df.cols.length Value.null hlen hwf
  · simp only
    unfold DataFrame.getCol
    rw [h]
    obtain ⟨hlt, -⟩ := findIdx?_some_facts h
    exact zipset_getD df.rows vs i Value.null hlen
      (fun r hr => (hwf r hr) ▸ hlt)

lemma setCol_getCol_ne (df : DataFrame) (c c' : String) (vs : List Value)
    (hwf : df.Wf) (hlen : vs.length = df.rows.length) (hne : c' ≠ c) :
    (df.setCol c vs).getCol c' = df.getCol c' := by
  unfold DataFrame.setCol
  rcases h : df.cols.findIdx? (fun k => k = c) with _ | i
  · simp only
    unfold DataFrame.getCol
    have happ : (df.cols ++ [c]).findIdx? (fun k => k = c')
        = df.cols.findIdx? (fun k => k = c') := by
      rw [List.findIdx?_append]
      have : ([c].findIdx? (fun k => k = c')) = none := by
        rw [List.findIdx?_eq_none_iff]
        intro x hx
        rw [List.mem_singleton] at hx
        subst hx
        exact decide_eq_false (fun hh => hne hh.symm)
      rw [this]
      simp
    rw [happ]
    rcases h' : df.cols.findIdx? (fun k => k = c') with _ | j
    · rfl
    · obtain ⟨hlt, -⟩ := findIdx?_some_facts h'
      exact zipappend_getD_lt df.rows vs j Value.null hlen
        (fun r hr => (hwf r hr) ▸ hlt)
  · simp only
    unfold DataFrame.getCol
    rcases h' : df.cols.findIdx? (fun k => k = c') with _ | j
    · rfl
    · have hij : i ≠ j := by
        intro hcontra
        obtain ⟨hlt, hgi⟩ := findIdx?_some_facts h
        obtain ⟨hlt', hgj⟩ := findIdx?_some_facts h'
        subst hcontra
        exact hne (hgj ▸ hgi ▸ rfl)
      exact zipset_getD_ne df.rows vs i j Value.null hij hlen

lemma setCol_contains_self (df : DataFrame) (c : String) (vs : List Value) :
    (df.setCol c vs).cols.contains c = true := by
  unfold DataFrame.setCol
  rcases h : df.cols.findIdx? (fun k => k = c) with _ | i
  · simp only
    rw [contains_eq_decide_mem, decide_eq_true_eq]
    simp
  · simp only
    obtain ⟨hlt, hgi⟩ := findIdx?_some_facts h
    rw [contains_eq_decide_mem, decide_eq_true_eq]
    exact hgi ▸ List.get_mem df.cols i hlt

lemma setCol_contains_ne (df : DataFrame) (c c' : String) (vs : List Value)
    (hne : c' ≠ c) :
    (df.setCol c vs).cols.contains c' = df.cols.contains c' := by
  unfold DataFrame.setCol
  rcases h : df.cols.findIdx? (fun k => k = c) with _ | i
  · simp only
    rw [contains_eq_decide_mem, contains_eq_decide_mem]
    rw [decide_eq_decide]
    simp [hne]
  · rfl

lemma setCol_rows_length (df : DataFrame) (c : String) (vs : List Value)
    (hlen : vs.length = df.rows.length) :
    (df.setCol c vs).rows.length = df.rows.length := by
  unfold DataFrame.setCol
  rcases h : df.cols.findIdx? (fun k => k = c) with _ | i <;>
    simp [List.length_zip, hlen]

lemma toDatetimeCol_length : ∀ {vs ws : List Value},
    toDatetimeCol vs = .ok ws → ws.length = vs.length := by
  intro vs
  induction vs with
  | nil => intro ws h; cases h; rfl
  | cons v vs ih =>
    intro ws h
    unfold toDatetimeCol at h
    rcases hv : toDatetimeValue v with e | w <;> rw [hv] at h
    · cases h
    · rcases hvs : toDatetimeCol vs with e | ws' <;> rw [hvs] at h
      · cases h
      · cases h
        simp [ih hvs]

lemma toDatetimeValue_ok_ts {v w : Value} (h : toDatetimeValue v = .ok w)
    (hb : v.isBlank = false) : w.isTs = true := by
  cases v with
  | num q => cases h; rfl
  | str s =>
    simp only [toDatetimeValue] at h
    by_cases hs : s = ""
    · simp [Value.isBlank, hs] at hb
    · rw [if_neg hs] at h
      rcases hp : parseInstant s with _ | t <;> rw [hp] at h
      · cases h
      · cases h; rfl
  | ts t => cases h; rfl
  | null => simp [Value.isBlank] at hb

lemma toDatetimeCol_ts : ∀ {vs ws : List Value},
    toDatetimeCol vs = .ok ws → vs.all (fun v => ! v.isBlank) = true →
    ws.all Value.isTs = true := by
  intro vs
  induction vs with
  | nil => intro ws h _; cases h; rfl
  | cons v vs ih =>
    intro ws h hb
    unfold toDatetimeCol at h
    rcases hv : toDatetimeValue v with e | w <;> rw [hv] at h
    · cases h
    · rcases hvs : toDatetimeCol vs with e | ws' <;> rw [hvs] at h
      · cases h
      · cases h
        rw [List.all_cons] at hb ⊢
        rw [Bool.and_eq_true] at hb ⊢
        refine ⟨toDatetimeValue_ok_ts hv ?_, ih hvs hb.2⟩
        rw [Bool.not_eq_eq_eq_not] at hb
        simpa using hb.1

lemma dateRange_eq_map_ts (s : ℚ) (n : Nat) (f : ℚ) :
    dateRange s n f = ((List.range n).map (fun i : Nat => s + f * (i : ℚ))).map Value.ts := by
  unfold dateRange
  rw [List.map_map]
  rfl

lemma dateRange_length (s : ℚ) (n : Nat) (f : ℚ) :
    (dateRange s n f).length = n := by
  rw [dateRange_eq_map_ts, List.length_map, List.length_map, List.length_range]

lemma dateRange_ts (s : ℚ) (n : Nat) (f : ℚ) :
    (dateRange s n f).all Value.isTs = true := by
  rw [List.all_eq_true]
  intro x hx
  rw [dateRange_eq_map_ts, List.mem_map] at hx
  obtain ⟨t, -, rfl⟩ := hx
  rfl

lemma tsTimes_map_ts (l : List ℚ) : tsTimes (l.map Value.ts) = l := by
  induction l with
  | nil => rfl
  | cons t l ih =>
    unfold tsTimes at ih ⊢
    rw [List.map_cons, List.filterMap_cons]
    simpa using ih

lemma tsTimes_dateRange (s : ℚ) (n : Nat) (f : ℚ) :
    tsTimes (dateRange s n f) = (List.range n).map (fun i : Nat => s + f * (i : ℚ)) := by
  rw [dateRange_eq_map_ts, tsTimes_map_ts]

lemma range_map_get (g : Nat → ℚ) (n i : Nat) (h : i < ((List.range n).map g).length) :
    ((List.range n).map g).get ⟨i, h⟩ = g i := by
  rw [List.get_eq_getElem, List.getElem_map]
  congr 1
  exact List.getElem_range _ _

lemma chain'_range_map (g : Nat → ℚ) (n : Nat) (R : ℚ → ℚ → Prop)
    (h : ∀ i, i + 1 < n → R (g i) (g (i + 1))) :
    List.Chain' R ((List.range n).map g) := by
  rw [List.chain'_iff_get]
  intro i hi
  rw [range_map_get, range_map_get]
  apply h
  rw [List.length_map, List.length_range] at hi
  omega

lemma loadBody_ok_cases {records : List Record} {now : ℚ} {df' : DataFrame}
    (h : loadBody (.ok records) now = .ok df') :
    ((DataFrame.ofRecords records).cols.contains "FechaHora" = true ∧
      ∃ parsed, toDatetimeCol ((DataFrame.ofRecords records).getCol "FechaHora") = .ok parsed ∧
        df' = (DataFrame.ofRecords records).setCol "FechaHora" parsed) ∨
    ((DataFrame.ofRecords records).cols.contains "FechaHora" = false ∧
      (DataFrame.ofRecords records).cols.contains "Timestamp" = true ∧
      ∃ parsed, toDatetimeCol ((DataFrame.ofRecords records).getCol "Timestamp") = .ok parsed ∧
        df' = (DataFrame.ofRecords records).setCol "FechaHora" parsed) ∨
    ((DataFrame.ofRecords records).cols.contains "FechaHora" = false ∧
      (DataFrame.ofRecords records).cols.contains "Timestamp" = false ∧
      df' = (DataFrame.ofRecords records).setCol "FechaHora"
        (dateRange (now - 86400) (DataFrame.ofRecords records).len 10)) := by
  simp only [loadBody] at h
  by_cases hF : (DataFrame.ofRecords records).cols.contains "FechaHora"
  · rw [if_pos hF] at h
    rcases hp : toDatetimeCol ((DataFrame.ofRecords records).getCol "FechaHora")
        with e | parsed <;> rw [hp] at h
    · cases h
    · cases h
      exact Or.inl ⟨hF, parsed, rfl, rfl⟩
  · rw [if_neg hF] at h
    rw [Bool.not_eq_true] at hF
    by_cases hT : (DataFrame.ofRecords records).cols.contains "Timestamp"
    · rw [if_pos hT] at h
      rcases hp : toDatetimeCol ((DataFrame.ofRecords records).getCol "Timestamp")
          with e | parsed <;> rw [hp] at h
      · cases h
      · cases h
        exact Or.inr (Or.inl ⟨hF, hT, parsed, rfl, rfl⟩)
    · rw [if_neg hT] at h
      rw [Bool.not_eq_true] at hT
      cases h
      exact Or.inr (Or.inr ⟨hF, hT, rfl⟩)

/-! ### Claim theorems -/

/-- C3: for every failure during load (credential, network/API,
malformed sheet — any error raised inside the try block), `load_data`
does not propagate the exception: it returns the empty DataFrame
together with a diagnostic message built from the error. -/
theorem load_data_failure_returns_empty (fetch : Except String (List Record))
    (now : ℚ) (e : String) (h : loadBody fetch now = .error e) :
    load_data fetch now = (DataFrame.emptyDF, some ("Error cargando datos: " ++ e))
      ∧ DataFrame.emptyDF.empty = true := by
  constructor
  · unfold load_data
    rw [h]
  · rfl

/-- Witness for C3 at a concrete failing fetch. -/
theorem load_data_failure_returns_empty_witness :
    load_data (.error "APIError") 0
        = (DataFrame.emptyDF, some ("Error cargando datos: " ++ "APIError"))
      ∧ DataFrame.emptyDF.empty = true :=
  load_data_failure_returns_empty (.error "APIError") 0 "APIError" rfl

/-- C9: a reachable sheet with zero data rows loads to an empty
DataFrame, and the presenter renders exactly the same fallback view as
after a load failure: at the loader's interface the two cases are
indistinguishable. -/
theorem empty_sheet_like_failure (now : ℚ) (e : String) :
    (load_data (.ok []) now).1.empty = true ∧
    render (load_data (.ok []) now).1 = .ok (.fallback ejemplo_data) ∧
    render (load_data (.ok []) now).1 = render (load_data (.error e) now).1 :=
  ⟨rfl, rfl, rfl⟩

/-- C6: an empty DataFrame always renders the fallback view with the
fixed example record shape, never the charting view; a non-empty
DataFrame never renders the fallback view. -/
theorem fallback_iff_empty (df : DataFrame) :
    (df.empty = true → render df = .ok (.fallback ejemplo_data)) ∧
    (df.empty = false → ∀ ex, render df ≠ .ok (.fallback ex)) := by
  constructor
  · intro h
    unfold render
    rw [h]
    rfl
  · intro h ex
    rcases hv : voltajeMetric df with e1 | volt
    · simp [render, h, hv]
    · rcases ht : temperaturaMetric df with e2 | temp
      · simp [render, h, hv, ht]
      · rcases hh : humedadMetric df with e3 | hum
        · simp [render, h, hv, ht, hh]
        · simp [render, h, hv, ht, hh]

/-- Witness for C6: the empty frame falls back, a one-row frame does
not. -/
theorem fallback_iff_empty_witness :
    render DataFrame.emptyDF = .ok (.fallback ejemplo_data) ∧
    render ⟨["Voltaje"], [[Value.num 1]]⟩ ≠ .ok (.fallback ejemplo_data) :=
  ⟨(fallback_iff_empty DataFrame.emptyDF).1 rfl,
   (fallback_iff_empty ⟨["Voltaje"], [[Value.num 1]]⟩).2 rfl ejemplo_data⟩

lemma any_nonnum_map_num (qs : List ℚ) :
    (qs.map Value.num).any
      (fun v => match v with | .str _ => true | .ts _ => true | _ => false) = false := by
  induction qs with
  | nil => rfl
  | cons q qs ih => simp [ih]

lemma filterMap_map_num (qs : List ℚ) :
    (qs.map Value.num).filterMap
      (fun v => match v with | Value.num q => some q | _ => none) = qs := by
  induction qs with
  | nil => rfl
  | cons q qs ih => simpa [List.filterMap_cons] using ih

/-- C7: when the `Voltaje` column holds numbers, the average-voltage
metric is their arithmetic mean. -/
theorem voltaje_metric_is_mean (df : DataFrame) (qs : List ℚ)
    (h1 : df.cols.contains "Voltaje" = true)
    (h2 : df.getCol "Voltaje" = qs.map Value.num)
    (h3 : qs ≠ []) :
    voltajeMetric df = .ok (some (qs.sum / (qs.length : ℚ))) := by
  have h4 : qs.isEmpty = false := by
    cases qs with
    | nil => exact absurd rfl h3
    | cons q qs => rfl
  unfold voltajeMetric seriesMean
  rw [h1, h2, any_nonnum_map_num, filterMap_map_num, h4]
  rfl

/-- Witness for C7: Voltaje `[3.3, 3.2]` averages to 3.25. -/
theorem voltaje_metric_is_mean_witness :
    voltajeMetric ⟨["Voltaje"], [[Value.num 3.3], [Value.num 3.2]]⟩
      = .ok (some 3.25) := by
  have h := voltaje_metric_is_mean ⟨["Voltaje"], [[Value.num 3.3], [Value.num 3.2]]⟩
    [3.3, 3.2] rfl rfl (by decide)
  rw [h]
  norm_num

/-- C8: when the `Temperatura` (resp. `Humedad`) column holds numbers,
the "current" metric is the value of the last row in sequence order. -/
theorem current_metrics_are_last_row (df : DataFrame) :
    (∀ qs q, df.cols.contains "Temperatura" = true →
        df.getCol "Temperatura" = List.map Value.num qs → qs.getLast? = some q →
        temperaturaMetric df = .ok (some (Value.num q))) ∧
    (∀ qs q, df.cols.contains "Humedad" = true →
        df.getCol "Humedad" = List.map Value.num qs → qs.getLast? = some q →
        humedadMetric df = .ok (some (Value.num q))) := by
  constructor
  · intro qs q h1 h2 h3
    unfold temperaturaMetric lastValueMetric
    rw [h1, h2, List.getLast?_map, h3]
    rfl
  · intro qs q h1 h2 h3
    unfold humedadMetric lastValueMetric
    rw [h1, h2, List.getLast?_map, h3]
    rfl

/-- Witness for C8: Temperatura `[25.5, 25.6]` yields 25.6, Humedad
`[60.0, 59.8]` yields 59.8. -/
theorem current_metrics_are_last_row_witness :
    temperaturaMetric ⟨["Temperatura"], [[Value.num 25.5], [Value.num 25.6]]⟩
        = .ok (some (Value.num 25.6)) ∧
    humedadMetric ⟨["Humedad"], [[Value.num 60.0], [Value.num 59.8]]⟩
        = .ok (some (Value.num 59.8)) :=
  ⟨(current_metrics_are_last_row _).1 [25.5, 25.6] 25.6 rfl rfl rfl,
   (current_metrics_are_last_row _).2 [60.0, 59.8] 59.8 rfl rfl rfl⟩

/-- C4: the timestamp column is resolved with this exact priority:
an existing `FechaHora` column is parsed in place; otherwise an
existing `Timestamp` column is parsed into `FechaHora`; otherwise
`FechaHora` is synthesized as the 10-second `date_range`. -/
theorem timestamp_priority (records : List Record) (now : ℚ) (df' : DataFrame)
    (h : loadBody (.ok records) now = .ok df') :
    ((DataFrame.ofRecords records).cols.contains "FechaHora" = true →
      toDatetimeCol ((DataFrame.ofRecords records).getCol "FechaHora")
        = .ok (df'.getCol "FechaHora")) ∧
    ((DataFrame.ofRecords records).cols.contains "FechaHora" = false →
      (DataFrame.ofRecords records).cols.contains "Timestamp" = true →
      toDatetimeCol ((DataFrame.ofRecords records).getCol "Timestamp")
        = .ok (df'.getCol "FechaHora")) ∧
    ((DataFrame.ofRecords records).cols.contains "FechaHora" = false →
      (DataFrame.ofRecords records).cols.contains "Timestamp" = false →
      df'.getCol "FechaHora" = dateRange (now - 86400) records.length 10) := by
  rcases loadBody_ok_cases h with ⟨hF, parsed, hp, rfl⟩ | ⟨hF, hT, parsed, hp, rfl⟩
    | ⟨hF, hT, rfl⟩
  · obtain ⟨i, hi⟩ := findIdx?_of_contains hF
    have hlen : parsed.length = (DataFrame.ofRecords records).rows.length := by
      rw [toDatetimeCol_length hp, getCol_length_of_findIdx? hi]
    refine ⟨fun _ => ?_, fun hF' _ => ?_, fun hF' _ => ?_⟩
    · rw [setCol_getCol_self _ _ _ (ofRecords_wf records) hlen]
      exact hp
    · rw [hF'] at hF
      exact Bool.noConfusion hF
    · rw [hF'] at hF
      exact Bool.noConfusion hF
  · obtain ⟨i, hi⟩ := findIdx?_of_contains hT
    have hlen : parsed.length = (DataFrame.ofRecords records).rows.length := by
      rw [toDatetimeCol_length hp, getCol_length_of_findIdx? hi]
    refine ⟨fun hF' => ?_, fun _ _ => ?_, fun _ hT' => ?_⟩
    · rw [hF'] at hF
      exact Bool.noConfusion hF
    · rw [setCol_getCol_self _ _ _ (ofRecords_wf records) hlen]
      exact hp
    · rw [hT'] at hT
      exact Bool.noConfusion hT
  · refine ⟨fun hF' => ?_, fun _ hT' => ?_, fun _ _ => ?_⟩
    · rw [hF'] at hF
      exact Bool.noConfusion hF
    · rw [hT'] at hT
      exact Bool.noConfusion hT
    · have hlen : (dateRange (now - 86400) (DataFrame.ofRecords records).len 10).length
          = (DataFrame.ofRecords records).rows.length := by
        rw [dateRange_length]
        rfl
      rw [setCol_getCol_self _ _ _ (ofRecords_wf records) hlen]
      have hn : (DataFrame.ofRecords records).len = records.length :=
        ofRecords_rows_length records
      rw [hn]

/-- Witness for C4: a sheet exposing `FechaHora` (here a numeric
epoch cell) is parsed in place. -/
theorem timestamp_priority_witness :
    toDatetimeCol ((DataFrame.ofRecords [[("FechaHora", Cell.num 0)]]).getCol "FechaHora")
      = .ok (((DataFrame.ofRecords [[("FechaHora", Cell.num 0)]]).setCol "FechaHora"
          [Value.ts (0 / 1000000000)]).getCol "FechaHora") :=
  (timestamp_priority [[("FechaHora", Cell.num 0)]] 0
    ((DataFrame.ofRecords [[("FechaHora", Cell.num 0)]]).setCol "FechaHora"
      [Value.ts (0 / 1000000000)]) (by rfl)).1 (by rfl)

/-- C10 (frame effect): a successful load changes nothing but the
resolved `FechaHora` column; every other column keeps its name,
values and row order — in particular a source `Timestamp` column is
kept unmodified alongside the new `FechaHora` column. -/
theorem other_columns_preserved (records : List Record) (now : ℚ) (df' : DataFrame)
    (h : loadBody (.ok records) now = .ok df') (c : String) (hc : c ≠ "FechaHora") :
    df'.getCol c = (DataFrame.ofRecords records).getCol c ∧
    df'.cols.contains c = (DataFrame.ofRecords records).cols.contains c := by
  rcases loadBody_ok_cases h with ⟨hF, parsed, hp, rfl⟩ | ⟨hF, hT, parsed, hp, rfl⟩
    | ⟨hF, hT, rfl⟩
  · obtain ⟨i, hi⟩ := findIdx?_of_contains hF
    have hlen : parsed.length = (DataFrame.ofRecords records).rows.length := by
      rw [toDatetimeCol_length hp, getCol_length_of_findIdx? hi]
    exact ⟨setCol_getCol_ne _ _ _ _ (ofRecords_wf records) hlen hc,
      setCol_contains_ne _ _ _ _ hc⟩
  · obtain ⟨i, hi⟩ := findIdx?_of_contains hT
    have hlen : parsed.length = (DataFrame.ofRecords records).rows.length := by
      rw [toDatetimeCol_length hp, getCol_length_of_findIdx? hi]
    exact ⟨setCol_getCol_ne _ _ _ _ (ofRecords_wf records) hlen hc,
      setCol_contains_ne _ _ _ _ hc⟩
  · have hlen : (dateRange (now - 86400) (DataFrame.ofRecords records).len 10).length
        = (DataFrame.ofRecords records).rows.length := by
      rw [dateRange_length]
      rfl
    exact ⟨setCol_getCol_ne _ _ _ _ (ofRecords_wf records) hlen hc,
      setCol_contains_ne _ _ _ _ hc⟩

/-- Witness for C10: the `Timestamp` column survives unchanged when it
is the timestamp source. -/
theorem other_columns_preserved_witness :
    ((DataFrame.ofRecords [[("Timestamp", Cell.num 0), ("Voltaje", Cell.num 3.3)]]).setCol
        "FechaHora" [Value.ts (0 / 1000000000)]).getCol "Timestamp"
      = (DataFrame.ofRecords
          [[("Timestamp", Cell.num 0), ("Voltaje", Cell.num 3.3)]]).getCol "Timestamp" ∧
    ((DataFrame.ofRecords [[("Timestamp", Cell.num 0), ("Voltaje", Cell.num 3.3)]]).setCol
        "FechaHora" [Value.ts (0 / 1000000000)]).cols.contains "Timestamp"
      = (DataFrame.ofRecords
          [[("Timestamp", Cell.num 0), ("Voltaje", Cell.num 3.3)]]).cols.contains "Timestamp" :=
  other_columns_preserved
    [[("Timestamp", Cell.num 0), ("Voltaje", Cell.num 3.3)]] 0
    ((DataFrame.ofRecords [[("Timestamp", Cell.num 0), ("Voltaje", Cell.num 3.3)]]).setCol
      "FechaHora" [Value.ts (0 / 1000000000)])
    (by rfl) "Timestamp" (by decide)

/-- C1 is refuted: a sheet whose `FechaHora` column contains a blank
cell (gspread returns the empty string) loads successfully — no error
message — yet the row's resolved timestamp is NaT, i.e. null. -/
theorem null_timestamp_counterexample :
    load_data (.ok [[("FechaHora", Cell.str "")]]) 0
      = (⟨["FechaHora"], [[Value.null]]⟩, none) ∧
    (⟨["FechaHora"], [[Value.null]]⟩ : DataFrame).getCol "FechaHora" = [Value.null] ∧
    Value.null.isTs = false :=
  ⟨by rfl, by rfl, by rfl⟩

/-- C1 amended: after a successful load the Dataset always has a
`FechaHora` column, and every row's timestamp is a non-null instant
provided no source timestamp cell was blank (blank cells parse to
NaT); synthesized timestamps are always non-null. -/
theorem rows_have_ts_when_nonblank (records : List Record) (now : ℚ) (df' : DataFrame)
    (h : loadBody (.ok records) now = .ok df')
    (hF : ((DataFrame.ofRecords records).getCol "FechaHora").all (fun v => ! v.isBlank) = true)
    (hT : ((DataFrame.ofRecords records).getCol "Timestamp").all (fun v => ! v.isBlank) = true) :
    df'.cols.contains "FechaHora" = true ∧
    (df'.getCol "FechaHora").all Value.isTs = true := by
  rcases loadBody_ok_cases h with ⟨hFc, parsed, hp, rfl⟩ | ⟨hFc, hTc, parsed, hp, rfl⟩
    | ⟨hFc, hTc, rfl⟩
  · obtain ⟨i, hi⟩ := findIdx?_of_contains hFc
    have hlen : parsed.length = (DataFrame.ofRecords records).rows.length := by
      rw [toDatetimeCol_length hp, getCol_length_of_findIdx? hi]
    refine ⟨setCol_contains_self _ _ _, ?_⟩
    rw [setCol_getCol_self _ _ _ (ofRecords_wf records) hlen]
    exact toDatetimeCol_ts hp hF
  · obtain ⟨i, hi⟩ := findIdx?_of_contains hTc
    have hlen : parsed.length = (DataFrame.ofRecords records).rows.length := by
      rw [toDatetimeCol_length hp, getCol_length_of_findIdx? hi]
    refine ⟨setCol_contains_self _ _ _, ?_⟩
    rw [setCol_getCol_self _ _ _ (ofRecords_wf records) hlen]
    exact toDatetimeCol_ts hp hT
  · have hlen : (dateRange (now - 86400) (DataFrame.ofRecords records).len 10).length
        = (DataFrame.ofRecords records).rows.length := by
      rw [dateRange_length]
      rfl
    refine ⟨setCol_contains_self _ _ _, ?_⟩
    rw [setCol_getCol_self _ _ _ (ofRecords_wf records) hlen]
    exact dateRange_ts _ _ _

/-- Witness for amended C1 at a sheet with a numeric `FechaHora`. -/
theorem rows_have_ts_when_nonblank_witness :
    ((DataFrame.ofRecords [[("FechaHora", Cell.num 0)]]).setCol "FechaHora"
        [Value.ts (0 / 1000000000)]).cols.contains "FechaHora" = true ∧
    (((DataFrame.ofRecords [[("FechaHora", Cell.num 0)]]).setCol "FechaHora"
        [Value.ts (0 / 1000000000)]).getCol "FechaHora").all Value.isTs = true :=
  rows_have_ts_when_nonblank [[("FechaHora", Cell.num 0)]] 0
    ((DataFrame.ofRecords [[("FechaHora", Cell.num 0)]]).setCol "FechaHora"
      [Value.ts (0 / 1000000000)])
    (by rfl) (by rfl) (by rfl)

/-- C2 is refuted on its "ending at the fetch time" part: with one
row and fetch time 0, the single synthesized timestamp is
`0 - 86400 + 10·0` — one day before the fetch time — not 0. -/
theorem synth_not_ending_at_fetch_time :
    (tsTimes ((load_data (.ok [[("Voltaje", Cell.num 3)]]) 0).1.getCol "FechaHora")).getLast?
      = some (0 - 86400 + 10 * ((0 : Nat) : ℚ)) ∧
    (0 - 86400 + 10 * ((0 : Nat) : ℚ)) ≠ (0 : ℚ) :=
  ⟨by rfl, by norm_num⟩

/-- C2 amended: with no timestamp-like column among the `N` fetched
rows, the synthesized `FechaHora` column has exactly `N` strictly
increasing timestamps spaced exactly 10 seconds apart — but the
sequence starts at the fetch time minus one day (it does not end at
the fetch time). -/
theorem synth_range_properties (records : List Record) (now : ℚ) (df' : DataFrame)
    (hF : (DataFrame.ofRecords records).cols.contains "FechaHora" = false)
    (hT : (DataFrame.ofRecords records).cols.contains "Timestamp" = false)
    (h : loadBody (.ok records) now = .ok df') :
    (df'.getCol "FechaHora").length = records.length ∧
    tsTimes (df'.getCol "FechaHora")
      = (List.range records.length).map (fun i : Nat => now - 86400 + 10 * (i : ℚ)) ∧
    List.Chain' (fun a b => b = a + 10) (tsTimes (df'.getCol "FechaHora")) ∧
    List.Chain' (fun a b : ℚ => a < b) (tsTimes (df'.getCol "FechaHora")) ∧
    (tsTimes (df'.getCol "FechaHora")).head?
      = if records.length = 0 then none else some (now - 86400) := by
  rcases loadBody_ok_cases h with ⟨hFc, -, -, -⟩ | ⟨-, hTc, -, -, -⟩ | ⟨-, -, rfl⟩
  · rw [hF] at hFc
    exact Bool.noConfusion hFc
  · rw [hT] at hTc
    exact Bool.noConfusion hTc
  · have hlen : (dateRange (now - 86400) (DataFrame.ofRecords records).len 10).length
        = (DataFrame.ofRecords records).rows.length := by
      rw [dateRange_length]
      rfl
    rw [setCol_getCol_self _ _ _ (ofRecords_wf records) hlen]
    have hn : (DataFrame.ofRecords records).len = records.length :=
      ofRecords_rows_length records
    rw [hn, tsTimes_dateRange]
    refine ⟨by rw [dateRange_length], rfl, ?_, ?_, ?_⟩
    · exact chain'_range_map _ _ _ (fun i hi => by push_cast; ring)
    · exact chain'_range_map _ _ _ (fun i hi => by push_cast; linarith)
    · cases hr : records.length with
      | zero => rfl
      | succ n =>
        rw [List.range_succ_eq_map]
        simp

/-- Witness for amended C2 at one row with no timestamp column. -/
theorem synth_range_properties_witness :
    (((DataFrame.ofRecords [[("Voltaje", Cell.num 3)]]).setCol "FechaHora"
        (dateRange (0 - 86400) 1 10)).getCol "FechaHora").length = 1 ∧
    tsTimes (((DataFrame.ofRecords [[("Voltaje", Cell.num 3)]]).setCol "FechaHora"
        (dateRange (0 - 86400) 1 10)).getCol "FechaHora")
      = (List.range 1).map (fun i : Nat => 0 - 86400 + 10 * (i : ℚ)) ∧
    List.Chain' (fun a b => b = a + 10)
      (tsTimes (((DataFrame.ofRecords [[("Voltaje", Cell.num 3)]]).setCol "FechaHora"
        (dateRange (0 - 86400) 1 10)).getCol "FechaHora")) ∧
    List.Chain' (fun a b : ℚ => a < b)
      (tsTimes (((DataFrame.ofRecords [[("Voltaje", Cell.num 3)]]).setCol "FechaHora"
        (dateRange (0 - 86400) 1 10)).getCol "FechaHora")) ∧
    (tsTimes (((DataFrame.ofRecords [[("Voltaje", Cell.num 3)]]).setCol "FechaHora"
        (dateRange (0 - 86400) 1 10)).getCol "FechaHora")).head?
      = if (1 : Nat) = 0 then none else some ((0 : ℚ) - 86400) :=
  synth_range_properties [[("Voltaje", Cell.num 3)]] 0
    ((DataFrame.ofRecords [[("Voltaje", Cell.num 3)]]).setCol "FechaHora"
      (dateRange (0 - 86400) 1 10))
    (by rfl) (by rfl) (by rfl)

/-- C5 is refuted: a non-coercible value in the `Voltaje` column is
carried through the load unchanged — as a string, not as a missing
value — and computing the average-voltage metric over it raises a
TypeError that escapes the presenter. -/
theorem noncoercible_counterexample :
    (load_data (.ok [[("FechaHora", Cell.num 0), ("Voltaje", Cell.str "x")]]) 0).2 = none ∧
    (load_data (.ok [[("FechaHora", Cell.num 0), ("Voltaje", Cell.str "x")]]) 0).1.getCol "Voltaje"
      = [Value.str "x"] ∧
    render (load_data (.ok [[("FechaHora", Cell.num 0), ("Voltaje", Cell.str "x")]]) 0).1
      = .error "TypeError: unsupported operand type for mean" :=
  ⟨by rfl, by rfl, by rfl⟩

/-- C5 amended: loading never raises because of non-coercible sensor
values (they pass through unchanged), but rendering a non-empty
Dataset whose `Voltaje` column contains such a value raises a
TypeError from the mean computation instead of treating it as
missing. -/
theorem mean_raises_on_noncoercible (df : DataFrame) (s : String)
    (h1 : df.empty = false) (h2 : df.cols.contains "Voltaje" = true)
    (h3 : Value.str s ∈ df.getCol "Voltaje") :
    render df = .error "TypeError: unsupported operand type for mean" := by
  have hany : (df.getCol "Voltaje").any
      (fun v => match v with | .str _ => true | .ts _ => true | _ => false) = true :=
    List.any_eq_true.mpr ⟨Value.str s, h3, rfl⟩
  have hv : voltajeMetric df = .error "TypeError: unsupported operand type for mean" := by
    unfold voltajeMetric seriesMean
    rw [h2, hany]
    rfl
  unfold render
  rw [h1, hv]
  rfl

/-- Witness for amended C5 at a one-row frame with `Voltaje = "x"`. -/
theorem mean_raises_on_noncoercible_witness :
    render ⟨["FechaHora", "Voltaje"], [[Value.ts 0, Value.str "x"]]⟩
      = .error "TypeError: unsupported operand type for mean" :=
  mean_raises_on_noncoercible ⟨["FechaHora", "Voltaje"], [[Value.ts 0, Value.str "x"]]⟩ "x"
    (by rfl) (by rfl) (by decide)
